import Mathlib

/-!
# BeerPi acquisition-and-fan-out pipeline: a shallow embedding

This file embeds the core of the `beerpi` repository (files `beerpi.py`,
`temp_control.py`, `mqtt_handler.py`) in Lean 4 and proves or refutes the
specification claims about it.

Conventions of the embedding:
* Python strings are `List Char`; `readlines()` output is `List (List Char)`.
* Python `float` values arising from the sensor path are exact rationals
  (`Rat`): the code only ever divides an integer by `1000.0` or rounds, so
  no floating-point rounding is relevant to the claims.
* A Python function that can raise returns `Except Unit α` or `Option α`
  (`none` = the function returned `None`; exception paths that the source
  catches and converts to `None` are also `none`).
* Randomness (`random.uniform`, `random.choice`) is passed in as explicit
  parameters (the drawn rational, the drawn boolean).
-/

namespace BeerPi

/-- Python `str.strip()`: drop ASCII whitespace from both ends of the
string (modelled on the whitespace characters that can occur in a
`w1_slave` payload line). -/
def pyIsSpace (c : Char) : Bool :=
  c = ' ' ∨ c = '\t' ∨ c = '\n' ∨ c = '\r'

/-- Python `str.strip()` on a `List Char`. -/
def pyStrip (s : List Char) : List Char :=
  ((s.dropWhile pyIsSpace).reverse.dropWhile pyIsSpace).reverse

/-- Python slice `s[-3:]`: the last three characters (the whole string if
it is shorter). -/
def lastThree (s : List Char) : List Char :=
  s.drop (s.length - 3)

/-- `lines[0].strip()[-3:] == "YES"`: the ready-marker check performed by
both `beerpi.read_temperature` and `temp_control.read_temp_sensor`. -/
def readyMarkerOk (line0 : List Char) : Bool :=
  lastThree (pyStrip line0) = [ 'Y', 'E', 'S' ]

/-- `lines[1].find("t=")` followed by the slice `lines[1][pos+2:]`:
returns the text after the first occurrence of `t=`, or `none` when the
token is absent (Python `find` returns `-1`). -/
def afterTEq : List Char → Option (List Char)
  | [] => none
  | 't' :: '=' :: rest => some rest
  | _ :: rest => afterTEq rest

/-- Parse a non-empty run of decimal digits into a natural number,
most-significant digit first. Returns `none` on a non-digit or on the
empty string. -/
def parseDigits (acc : Nat) : List Char → Option Nat
  | [] => some acc
  | c :: rest =>
    if c.isDigit then parseDigits (acc * 10 + (c.toNat - '0'.toNat)) rest
    else none

/-- Python `float(temp_string)` restricted to the integer payloads the
DS18B20 sensor emits: optional ASCII whitespace around an optional sign
followed by a non-empty digit run. Any other text raises `ValueError` in
the source, which the caller catches and converts to `None`; here that is
`none`. -/
def pyFloatOfIntString (s : List Char) : Option Int :=
  match pyStrip s with
  | [] => none
  | '-' :: rest =>
    match rest with
    | [] => none
    | _ => (parseDigits 0 rest).map (fun n => -(n : Int))
  | '+' :: rest =>
    match rest with
    | [] => none
    | _ => (parseDigits 0 rest).map (fun n => (n : Int))
  | other => (parseDigits 0 other).map (fun n => (n : Int))

/-- `beerpi.read_temperature` / `temp_control.read_temp_sensor`, after the
payload has been read into `lines`:

* an empty file makes `lines[0]` raise `IndexError`, caught and turned
  into `None`;
* if the stripped first line does not end in `YES` the function logs
  "not ready" and returns `None`;
* a missing second line likewise raises `IndexError`, caught → `None`;
* if `t=` is absent from the second line the function returns `None`;
* otherwise the text after `t=` is parsed and divided by `1000.0`; a
  parse failure raises `ValueError`, caught → `None`. -/
def readTemperature (lines : List (List Char)) : Option Rat :=
  match lines with
  | [] => none
  | line0 :: rest =>
    if readyMarkerOk line0 then
      match rest with
      | [] => none
      | line1 :: _ =>
        match afterTEq line1 with
        | none => none
        | some tailStr => (pyFloatOfIntString tailStr).map (fun n => (n : Rat) / 1000)
    else none

/-! ## Rounding (`round(x, 2)` in `temp_control.py`) -/

/-- Python 3 `round()` to the nearest integer: round-half-to-even
(banker's rounding), on an exact rational. -/
def pyRoundInt (q : Rat) : Int :=
  if q - ⌊q⌋ < 1/2 then ⌊q⌋
  else if 1/2 < q - ⌊q⌋ then ⌊q⌋ + 1
  else if ⌊q⌋ % 2 = 0 then ⌊q⌋ else ⌊q⌋ + 1

/-- Python `round(x, 2)`: round to two decimal places. -/
def pyRound2 (q : Rat) : Rat := (pyRoundInt (q * 100) : Rat) / 100

/-! ## Relay state and samples -/

/-- The relay-state strings `"ON"` / `"OFF"` / `"UNKNOWN"` used by both
scripts, as an enumeration. -/
inductive RelayState
  | ON
  | OFF
  | UNKNOWN
deriving DecidableEq

/-- `random.choice(["ON", "OFF"])` in `temp_control.py`: the boolean is
the random pick. -/
def simulatedRelay (pick : Bool) : RelayState :=
  if pick then RelayState.ON else RelayState.OFF

/-- One reading as produced by the `temp_control.py` main loop:
a temperature and a relay state. -/
structure SensorSample where
  temperature : Rat
  relay : RelayState
deriving DecidableEq

/-! ## `temp_control.py`: startup mode and the main loop body -/

/-- Module-level mode selection in `temp_control.py`: `SIMULATE_SENSORS`
is `False` when `detect_temp_sensor()` found a device directory and
`True` otherwise.  It is assigned only here, once, at import time. -/
def initialSimulateSensors (sensorDetected : Bool) : Bool :=
  !sensorDetected

/-- Everything one iteration of the `temp_control.py` main loop does.
`dbInsertCalled` / `mqttPublishCalled` record whether
`insert_sensor_data` and `mqtt_handler.publish_message` were invoked for
the tick's sample. -/
structure TickResult where
  /-- The value of `SIMULATE_SENSORS` after the iteration (the loop body
  never assigns it). -/
  simulateAfter : Bool
  /-- The sample handed to the DB insert and the MQTT publishes. -/
  sample : SensorSample
  dbInsertCalled : Bool
  mqttPublishCalled : Bool
deriving DecidableEq

/-- The body of the `while True:` loop in `temp_control.py`.
Inputs: the current `SIMULATE_SENSORS` flag, the result of
`read_temp_sensor` (consulted only in live mode), and the two random
draws (`u` for `random.uniform(18.0, 25.0)`, `pick` for
`random.choice(["ON", "OFF"])`).

In live mode a `None` temperature triggers the in-loop fallback: the code
logs "falling back to simulated data" and replaces the reading with a
fresh simulated one.  In every branch the loop then calls
`insert_sensor_data` and `mqtt_handler.publish_message` with the sample;
no branch skips them and no branch assigns `SIMULATE_SENSORS`. -/
def tempControlTick (simulateSensors : Bool) (liveRead : Option Rat)
    (u : Rat) (pick : Bool) : TickResult :=
  if simulateSensors then
    ⟨simulateSensors, ⟨pyRound2 u, simulatedRelay pick⟩, true, true⟩
  else
    match liveRead with
    | some t => ⟨simulateSensors, ⟨t, RelayState.OFF⟩, true, true⟩
    | none => ⟨simulateSensors, ⟨pyRound2 u, simulatedRelay pick⟩, true, true⟩

/-- The `SIMULATE_SENSORS` flag after running the loop body once per
element of `ticks` (each element carries that tick's live-read result and
random draws). -/
def runTicks (simulateSensors : Bool) (ticks : List (Option Rat × Rat × Bool)) : Bool :=
  ticks.foldl (fun mode t => (tempControlTick mode t.1 t.2.1 t.2.2).simulateAfter)
    simulateSensors

/-- `temp_control.insert_sensor_data`: the whole body is inside
`try/except`, so the function never propagates an exception.  Returns
(row inserted?, exception propagated?); `dbRaises` says whether the DB
calls raise. -/
def insertSensorData (dbRaises : Bool) : Bool × Bool :=
  (!dbRaises, false)

/-- `mqtt_handler.publish_message`: the publish call is inside
`try/except`, so the function never propagates an exception.  Returns
(publish call completed?, exception propagated?). -/
def publishMessage (pubRaises : Bool) : Bool × Bool :=
  (!pubRaises, false)

/-! ## `beerpi.py`: `send_data` and the main loop body -/

/-- The InfluxDB point built by `beerpi.send_data`: fields
`temperature` and `relay` (1 for `"ON"`, else 0). -/
structure InfluxPoint where
  temperature : Rat
  relay : Int
deriving DecidableEq

/-- What one call of `beerpi.send_data` does.  `raised` records whether
an exception propagates out of `send_data` to its caller. -/
structure SendOutcome where
  /-- The temperature publish to `MQTT_TOPIC_TEMPERATURE` completed. -/
  busTempOk : Bool
  /-- The relay publish to `MQTT_TOPIC_RELAY` completed. -/
  busRelayOk : Bool
  /-- The point written by `write_api.write`, when that call succeeded. -/
  influxPoint : Option InfluxPoint
  raised : Bool
deriving DecidableEq

/-- `beerpi.send_data(temperature, relay_state)`.

The two `mqtt_client.publish` calls are NOT wrapped in `try`: if one of
them raises, the rest of `send_data` does not run and the exception
propagates to the caller.  The InfluxDB write IS wrapped in
`try/except`, so its failure is swallowed.  The point's temperature
field is `temperature if temperature is not None else 0.0` and its
relay field is `1 if relay_state == "ON" else 0`. -/
def sendData (temperature : Option Rat) (relayState : RelayState)
    (busTempRaises busRelayRaises influxRaises : Bool) : SendOutcome :=
  if busTempRaises then
    ⟨false, false, none, true⟩
  else if busRelayRaises then
    ⟨true, false, none, true⟩
  else
    if influxRaises then
      ⟨true, true, none, false⟩
    else
      ⟨true, true,
        some ⟨temperature.getD 0, if relayState = RelayState.ON then 1 else 0⟩,
        false⟩

/-- One iteration of the `while True:` loop in `beerpi.main`. -/
structure BeerpiTickResult where
  /-- `send_data` is called unconditionally, whatever `read_temperature`
  returned. -/
  sendDataCalled : Bool
  outcome : SendOutcome
  /-- The loop body has no exception handler, so an exception raised by
  `send_data` propagates out of the tick. -/
  aborted : Bool
deriving DecidableEq

/-- The body of the `while True:` loop in `beerpi.main`: read the
temperature, read the relay state (`relay` is its result), and call
`send_data` on whatever came back. -/
def beerpiTick (lines : List (List Char)) (relay : RelayState)
    (busTempRaises busRelayRaises influxRaises : Bool) : BeerpiTickResult :=
  let temperature := readTemperature lines
  let outcome := sendData temperature relay busTempRaises busRelayRaises influxRaises
  ⟨true, outcome, outcome.raised⟩

/-! ## `mqtt_handler.py`: the startup connection retry loop -/

/-- Result of the module-level `for attempt in range(max_retries)` retry
loop in `mqtt_handler.py`. -/
structure ConnectResult where
  /-- Number of `mqtt_client.connect` attempts actually made. -/
  attempts : Nat
  /-- Seconds spent in `time.sleep(retry_delay)` calls. -/
  sleepTotal : Nat
  connected : Bool
  /-- No branch of the loop calls `sys.exit` or re-raises: module
  execution always continues past the loop. -/
  exitsProcess : Bool
deriving DecidableEq

/-- The retry loop, unrolled over the remaining iteration count.
`attemptOk i` says whether the `connect` call on 0-based attempt `i`
succeeds.  On success the loop starts the network thread and `break`s;
on failure it logs, then sleeps `retryDelay` seconds only when
`attempt < maxRetries - 1`, else logs `critical` and gives up (the
`except` swallows the exception; nothing exits the process). -/
def connectRetryGo (attemptOk : Nat → Bool) (maxRetries retryDelay : Nat) :
    Nat → Nat → ConnectResult
  | 0, _ => ⟨0, 0, false, false⟩
  | remaining + 1, attempt =>
    if attemptOk attempt then ⟨1, 0, true, false⟩
    else
      let pause := if attempt < maxRetries - 1 then retryDelay else 0
      let rest := connectRetryGo attemptOk maxRetries retryDelay remaining (attempt + 1)
      ⟨rest.attempts + 1, pause + rest.sleepTotal, rest.connected, rest.exitsProcess⟩

/-- The whole retry loop: `max_retries` iterations starting at attempt 0
(the source defaults are `max_retries = 5`, `retry_delay = 5`). -/
def connectRetry (attemptOk : Nat → Bool) (maxRetries retryDelay : Nat) : ConnectResult :=
  connectRetryGo attemptOk maxRetries retryDelay maxRetries 0

/-! ## MQTT actions: `on_connect`, discovery, shutdown -/

/-- The payloads that appear in the claims, as tags (the JSON bodies are
fixed constants in the source). -/
inductive MqttPayload
  /-- The string `"online"` published to the status topic. -/
  | statusOnline
  /-- The Home Assistant discovery JSON for the temperature sensor. -/
  | discoveryTempConfig
  /-- The Home Assistant discovery JSON for the relay binary sensor. -/
  | discoveryRelayConfig
deriving DecidableEq

/-- An operation performed on the MQTT client. -/
inductive MqttAction
  | publish (topic : String) (payload : MqttPayload) (retain : Bool)
  | subscribe (topic : String)
deriving DecidableEq

/-- `mqtt_handler.on_connect(client, userdata, flags, rc)`: on `rc = 0`
it publishes the retained status message and subscribes to three topics,
in this order; on `rc ≠ 0` it only logs.  It publishes no discovery
configuration. -/
def onConnect (rc : Nat) : List MqttAction :=
  if rc = 0 then
    [ MqttAction.publish "home/beerpi/status" MqttPayload.statusOnline true,
      MqttAction.subscribe "home/beerpi/config/#",
      MqttAction.subscribe "home/beerpi/temperature",
      MqttAction.subscribe "home/beerpi/relay_state" ]
  else []

/-- `beerpi.publish_homeassistant_discovery()`: two `publish` calls with
no `retain` argument (paho's default is `retain=False`).  It is called
exactly once, from `main()` at startup, not from any connection
callback. -/
def publishHomeassistantDiscovery : List MqttAction :=
  [ MqttAction.publish "homeassistant/sensor/beerpi_temperature/config"
      MqttPayload.discoveryTempConfig false,
    MqttAction.publish "homeassistant/binary_sensor/beerpi_relay/config"
      MqttPayload.discoveryRelayConfig false ]

/-- Whether an action publishes one of the discovery configurations. -/
def isDiscoveryPublish : MqttAction → Bool
  | MqttAction.publish _ MqttPayload.discoveryTempConfig _ => true
  | MqttAction.publish _ MqttPayload.discoveryRelayConfig _ => true
  | _ => false

/-- The steps of `beerpi.cleanup(signum, frame)`, the SIGINT/SIGTERM
handler, in order. -/
inductive ShutdownAction
  | gpioCleanup
  | publishAction (a : MqttAction)
  | mqttDisconnect
  | sysExit (code : Nat)
deriving DecidableEq

/-- `beerpi.cleanup`: log, `GPIO.cleanup()`, `mqtt_client.disconnect()`,
`sys.exit(0)`.  No MQTT message of any kind is published. -/
def cleanup : List ShutdownAction :=
  [ ShutdownAction.gpioCleanup, ShutdownAction.mqttDisconnect, ShutdownAction.sysExit 0 ]

/-- Whether a shutdown step publishes an MQTT message. -/
def isShutdownPublish : ShutdownAction → Bool
  | ShutdownAction.publishAction _ => true
  | _ => false

/-- The `retain` flag an action was published with (`false` for
subscriptions). -/
def actionRetained : MqttAction → Bool
  | MqttAction.publish _ _ r => r
  | MqttAction.subscribe _ => false

/-! ## Helper lemmas -/

lemma floor_le_pyRoundInt (q : Rat) : ⌊q⌋ ≤ pyRoundInt q := by
  unfold pyRoundInt
  split_ifs <;> omega

lemma pyRoundInt_le_floor_add_one (q : Rat) : pyRoundInt q ≤ ⌊q⌋ + 1 := by
  unfold pyRoundInt
  split_ifs <;> omega

lemma le_pyRoundInt {a : Int} {q : Rat} (h : (a : Rat) ≤ q) : a ≤ pyRoundInt q :=
  le_trans (Int.le_floor.mpr h) (floor_le_pyRoundInt q)

lemma pyRoundInt_le {b : Int} {q : Rat} (h : q ≤ (b : Rat)) : pyRoundInt q ≤ b := by
  rcases eq_or_lt_of_le h with heq | hlt
  · rw [heq]
    have hfl : ⌊(b : Rat)⌋ = b := Int.floor_intCast b
    unfold pyRoundInt
    rw [hfl]
    norm_num
  · have hb : ⌊q⌋ < b := by
      have h2 : (⌊q⌋ : Rat) < (b : Rat) := lt_of_le_of_lt (Int.floor_le q) hlt
      exact_mod_cast h2
    calc pyRoundInt q ≤ ⌊q⌋ + 1 := pyRoundInt_le_floor_add_one q
      _ ≤ b := by omega

lemma pyRound2_mem_Icc {u : Rat} (h1 : 18 ≤ u) (h2 : u ≤ 25) :
    18 ≤ pyRound2 u ∧ pyRound2 u ≤ 25 := by
  have hl : (1800 : Int) ≤ pyRoundInt (u * 100) := by
    apply le_pyRoundInt
    push_cast
    linarith
  have hu : pyRoundInt (u * 100) ≤ (2500 : Int) := by
    apply pyRoundInt_le
    push_cast
    linarith
  have hl' : (1800 : Rat) ≤ (pyRoundInt (u * 100) : Rat) := by exact_mod_cast hl
  have hu' : (pyRoundInt (u * 100) : Rat) ≤ 2500 := by exact_mod_cast hu
  unfold pyRound2
  constructor <;> linarith

lemma tempControlTick_simulateAfter (m : Bool) (lr : Option Rat) (u : Rat) (pick : Bool) :
    (tempControlTick m lr u pick).simulateAfter = m := by
  cases lr <;> cases m <;> simp [tempControlTick]

lemma tempControlTick_dbInsertCalled (m : Bool) (lr : Option Rat) (u : Rat) (pick : Bool) :
    (tempControlTick m lr u pick).dbInsertCalled = true := by
  cases lr <;> cases m <;> simp [tempControlTick]

lemma runTicks_eq (m : Bool) (ticks : List (Option Rat × Rat × Bool)) :
    runTicks m ticks = m := by
  induction ticks generalizing m with
  | nil => rfl
  | cons t ts ih =>
    show runTicks (tempControlTick m t.1 t.2.1 t.2.2).simulateAfter ts = m
    rw [tempControlTick_simulateAfter]
    exact ih m

/-! ## Claim theorems -/

/-- C1, counterexample.  Starting in LIVE mode (`SIMULATE_SENSORS =
false`), after exactly 3 consecutive transient live-read failures
(`read_temp_sensor` returning `None` each tick) the mode is still LIVE:
the claimed LIVE→SIMULATED transition does not happen, because the loop
never assigns `SIMULATE_SENSORS`. -/
theorem mode_still_live_after_three_failures :
    runTicks false [(none, 20, true), (none, 20, true), (none, 20, true)] = false := by
  rfl

/-- C1, amended.  The acquisition mode flag is set exactly once, at
startup, from the device probe (`SIMULATE_SENSORS = true` iff no sensor
directory was found), and it never changes during the run: no number of
consecutive live-read failures demotes it, and no later probe promotes
it back (the loop contains no re-probe). -/
theorem mode_fixed_at_startup (detected : Bool)
    (ticks : List (Option Rat × Rat × Bool)) :
    runTicks (initialSimulateSensors detected) ticks = initialSimulateSensors detected
    ∧ initialSimulateSensors detected = !detected :=
  ⟨runTicks_eq _ ticks, rfl⟩

/-- C2, counterexample.  In `beerpi.send_data`, when the first bus
publish raises, the time-series point is never written and the exception
propagates out of `send_data` — so a failure in one sink does prevent
the writes to the others and aborts the tick. -/
theorem bus_failure_not_isolated :
    (sendData (some 20) RelayState.OFF true false false).influxPoint = none
    ∧ (sendData (some 20) RelayState.OFF true false false).raised = true
    ∧ (beerpiTick [] RelayState.OFF true false false).aborted = true :=
  ⟨rfl, rfl, rfl⟩

/-- C2, amended.  The time-series write in `send_data` and the
relational insert and bus publish of `temp_control.py` are each wrapped
so their failures are isolated (they never propagate, and an InfluxDB
failure does not prevent the bus publishes that precede it); but the two
bus publishes in `beerpi.send_data` are not wrapped: a failure there
prevents the time-series write of that tick and propagates out of
`send_data`, aborting the tick. -/
theorem sink_isolation_partial (t : Option Rat) (r : RelayState)
    (influxRaises dbRaises pubRaises : Bool) :
    ((sendData t r false false influxRaises).raised = false
      ∧ (sendData t r false false influxRaises).busTempOk = true
      ∧ (sendData t r false false influxRaises).busRelayOk = true)
    ∧ (insertSensorData dbRaises).2 = false
    ∧ (publishMessage pubRaises).2 = false
    ∧ ((sendData t r true false false).influxPoint = none
      ∧ (sendData t r true false false).raised = true) := by
  cases influxRaises <;>
    simp [sendData, insertSensorData, publishMessage]

/-- C3, counterexample.  A tick in LIVE mode whose live read fails
transiently (`read_temp_sensor` returns `None`) does not skip its sink
writes: `insert_sensor_data` is still called, and the sample it receives
is exactly the simulated sample a SIMULATED-mode tick with the same
random draws would produce — the loop falls back to simulated data
within the same tick. -/
theorem failed_live_tick_writes_simulated_sample :
    (tempControlTick false none 20 true).dbInsertCalled = true
    ∧ (tempControlTick false none 20 true).mqttPublishCalled = true
    ∧ (tempControlTick false none 20 true).sample
        = (tempControlTick true none 20 true).sample :=
  ⟨rfl, rfl, rfl⟩

/-- C3, amended.  On a tick whose live read fails with a transient
error, `temp_control.py` does not discard the sample: it falls back to a
freshly simulated reading within that same tick and writes that
simulated sample to the relational and bus sinks. -/
theorem failed_live_tick_falls_back (u : Rat) (pick : Bool) :
    tempControlTick false none u pick
      = ⟨false, ⟨pyRound2 u, simulatedRelay pick⟩, true, true⟩ := by
  rfl

/-- C4, counterexample.  With the broker unreachable (every connect
attempt raising), the startup retry loop makes 5 attempts but sleeps
only between consecutive attempts — 4 sleeps of 5 s, 20 s total, not
the claimed ≈ 25 s — and never exits the process. -/
theorem retry_loop_sleeps_twenty_seconds :
    connectRetry (fun _ => false) 5 5 = ⟨5, 20, false, false⟩
    ∧ (connectRetry (fun _ => false) 5 5).sleepTotal ≠ 25 := by
  constructor
  · rfl
  · decide

/-- C4, amended.  When the broker is unreachable the startup protocol
makes exactly 5 connect attempts with a 5-second sleep between
consecutive attempts (so 4 sleeps, 20 seconds of delay in total), and
after exhausting the retries the process continues in degraded mode:
nothing exits, and the tick loop still performs its sink writes. -/
theorem retry_loop_bounded_then_degraded (attemptOk : Nat → Bool)
    (hfail : ∀ i, attemptOk i = false) :
    connectRetry attemptOk 5 5 = ⟨5, 20, false, false⟩
    ∧ ∀ (m : Bool) (lr : Option Rat) (u : Rat) (pick : Bool),
        (tempControlTick m lr u pick).dbInsertCalled = true := by
  refine ⟨?_, fun m lr u pick => tempControlTick_dbInsertCalled m lr u pick⟩
  simp [connectRetry, connectRetryGo, hfail]

/-- C4, witness for `retry_loop_bounded_then_degraded`. -/
theorem retry_loop_bounded_then_degraded_witness :
    connectRetry (fun _ => false) 5 5 = ⟨5, 20, false, false⟩
    ∧ ∀ (m : Bool) (lr : Option Rat) (u : Rat) (pick : Bool),
        (tempControlTick m lr u pick).dbInsertCalled = true :=
  retry_loop_bounded_then_degraded (fun _ => false) (fun _ => rfl)

/-- C5, confirmed.  For every payload whose first line passes the
ready-marker check and whose second line contains a `t=` token followed
by text encoding the integer `n` (millidegrees), `read_temperature`
returns exactly `n / 1000` — an exact rational, so exact to 3 decimal
places: multiplying back by 1000 recovers `n`. -/
theorem read_temperature_valid_payload (line0 line1 : List Char)
    (rest : List (List Char)) (tailStr : List Char) (n : Int)
    (h0 : readyMarkerOk line0 = true)
    (h1 : afterTEq line1 = some tailStr)
    (h2 : pyFloatOfIntString tailStr = some n) :
    readTemperature (line0 :: line1 :: rest) = some ((n : Rat) / 1000)
    ∧ ((n : Rat) / 1000) * 1000 = (n : Rat) := by
  constructor
  · simp [readTemperature, h0, h1, h2]
  · field_simp

/-- C5, witness for `read_temperature_valid_payload`: the payload
`["ab YES", "x t=23187"]` yields 23.187 °C. -/
theorem read_temperature_valid_payload_witness :
    readTemperature [ "ab YES".toList, "x t=23187".toList ]
        = some (((23187 : Int) : Rat) / 1000)
    ∧ (((23187 : Int) : Rat) / 1000) * 1000 = ((23187 : Int) : Rat) :=
  read_temperature_valid_payload ("ab YES".toList) ("x t=23187".toList) []
    ("23187".toList) 23187 (by decide) (by decide) (by decide)

/-- C6, counterexample.  The `on_connect` callback for a successful
connection (`rc = 0`) publishes no discovery registration at all, and
the discovery publishes that do exist (sent once at startup by
`beerpi.py`) are not retained — contradicting the claim that every
(re)connection publishes the discovery registrations retained. -/
theorem discovery_not_republished_on_connect :
    (onConnect 0).all (fun a => !isDiscoveryPublish a) = true
    ∧ publishHomeassistantDiscovery.all (fun a => !actionRetained a) = true := by
  decide

/-- C6, amended.  On every successful (re)connection the `on_connect`
callback publishes only the retained liveness/status message (its first
action) followed by three subscriptions; the discovery registrations are
published once at process startup by `beerpi.py`, without the retained
flag, and are not tied to connection epochs. -/
theorem on_connect_publishes_status_only :
    onConnect 0
      = [ MqttAction.publish "home/beerpi/status" MqttPayload.statusOnline true,
          MqttAction.subscribe "home/beerpi/config/#",
          MqttAction.subscribe "home/beerpi/temperature",
          MqttAction.subscribe "home/beerpi/relay_state" ]
    ∧ publishHomeassistantDiscovery
      = [ MqttAction.publish "homeassistant/sensor/beerpi_temperature/config"
            MqttPayload.discoveryTempConfig false,
          MqttAction.publish "homeassistant/binary_sensor/beerpi_relay/config"
            MqttPayload.discoveryRelayConfig false ] :=
  ⟨rfl, rfl⟩

/-- C7, counterexample.  The shutdown handler `beerpi.cleanup` publishes
no MQTT message at all — in particular no "offline" liveness status —
even though it does exit with status 0. -/
theorem cleanup_publishes_nothing :
    cleanup.all (fun a => !isShutdownPublish a) = true
    ∧ ShutdownAction.sysExit 0 ∈ cleanup := by
  decide

/-- C7, amended.  On receiving a termination signal the handler cleans
up the GPIO, closes the broker session, and exits the process with
status 0; it publishes no offline liveness status before doing so. -/
theorem cleanup_disconnects_and_exits_zero :
    cleanup = [ ShutdownAction.gpioCleanup, ShutdownAction.mqttDisconnect,
                ShutdownAction.sysExit 0 ]
    ∧ cleanup.all (fun a => !isShutdownPublish a) = true :=
  ⟨rfl, by decide⟩

/-- C8, confirmed.  For every payload whose first line fails the
ready-marker check, `read_temperature` returns `None` (a transient
rejection: no sample value and, the exception paths all being caught, no
raised exception), and the tick consuming that result leaves the
acquisition mode unchanged — the code has no failure counter at all, so
the mode is unchanged below (indeed regardless of) any threshold. -/
theorem not_ready_is_transient (line0 : List Char) (rest : List (List Char))
    (h : readyMarkerOk line0 = false) :
    readTemperature (line0 :: rest) = none
    ∧ ∀ (m : Bool) (u : Rat) (pick : Bool),
        (tempControlTick m (readTemperature (line0 :: rest)) u pick).simulateAfter = m := by
  refine ⟨?_, fun m u pick => tempControlTick_simulateAfter m _ u pick⟩
  simp [readTemperature, h]

/-- C8, witness for `not_ready_is_transient`: the payload
`["ab NO", "x t=23187"]` is rejected without a mode change. -/
theorem not_ready_is_transient_witness :
    readTemperature [ "ab NO".toList, "x t=23187".toList ] = none
    ∧ ∀ (m : Bool) (u : Rat) (pick : Bool),
        (tempControlTick m (readTemperature [ "ab NO".toList, "x t=23187".toList ]) u
          pick).simulateAfter = m :=
  not_ready_is_transient ("ab NO".toList) [ "x t=23187".toList ] (by decide)

/-- C9, confirmed.  Every simulated reading (a SIMULATED-mode tick)
has temperature `round(uniform(18.0, 25.0), 2)`: for every draw `u` in
[18, 25] the stored temperature stays within [18, 25] inclusive, is an
exact multiple of 0.01 (two decimal places), and the relay state is
always either ON or OFF. -/
theorem simulated_reading_bounded (u : Rat) (pick : Bool)
    (h1 : 18 ≤ u) (h2 : u ≤ 25) :
    18 ≤ (tempControlTick true none u pick).sample.temperature
    ∧ (tempControlTick true none u pick).sample.temperature ≤ 25
    ∧ (∃ k : Int, (tempControlTick true none u pick).sample.temperature * 100 = (k : Rat))
    ∧ ((tempControlTick true none u pick).sample.relay = RelayState.ON
      ∨ (tempControlTick true none u pick).sample.relay = RelayState.OFF) := by
  have hb := pyRound2_mem_Icc h1 h2
  refine ⟨hb.1, hb.2, ⟨pyRoundInt (u * 100), ?_⟩, ?_⟩
  · show pyRound2 u * 100 = _
    unfold pyRound2
    field_simp
  · show simulatedRelay pick = RelayState.ON ∨ simulatedRelay pick = RelayState.OFF
    cases pick <;> simp [simulatedRelay]

/-- C9, witness for `simulated_reading_bounded` at the draw u = 20. -/
theorem simulated_reading_bounded_witness :
    18 ≤ (tempControlTick true none 20 true).sample.temperature
    ∧ (tempControlTick true none 20 true).sample.temperature ≤ 25
    ∧ (∃ k : Int, (tempControlTick true none 20 true).sample.temperature * 100 = (k : Rat))
    ∧ ((tempControlTick true none 20 true).sample.relay = RelayState.ON
      ∨ (tempControlTick true none 20 true).sample.relay = RelayState.OFF) :=
  simulated_reading_bounded 20 true (by norm_num) (by norm_num)

/-- C10, confirmed.  On every tick where `read_temperature` returns
`None`, `beerpi.main` still calls `send_data`, and (the sinks not
raising) the InfluxDB point it writes carries temperature field 0.0 —
the failed reading is recorded as the value 0, not skipped or marked
absent. -/
theorem failed_read_recorded_as_zero (lines : List (List Char)) (r : RelayState)
    (h : readTemperature lines = none) :
    (beerpiTick lines r false false false).sendDataCalled = true
    ∧ (beerpiTick lines r false false false).outcome.influxPoint.map
        InfluxPoint.temperature = some 0 := by
  refine ⟨rfl, ?_⟩
  simp [beerpiTick, sendData, h]

/-- C10, witness for `failed_read_recorded_as_zero`: the not-ready
payload `["ab NO"]` is sent to InfluxDB as temperature 0. -/
theorem failed_read_recorded_as_zero_witness :
    (beerpiTick [ "ab NO".toList ] RelayState.OFF false false false).sendDataCalled = true
    ∧ (beerpiTick [ "ab NO".toList ] RelayState.OFF false false false).outcome.influxPoint.map
        InfluxPoint.temperature = some 0 :=
  failed_read_recorded_as_zero [ "ab NO".toList ] RelayState.OFF (by decide)

end BeerPi
